import Mathlib

/-!
Verification development for the `energy_data_hub` repository.

The repository's only nontrivial unit is `WeatherDataFetcher` in
`ensamble_precipitation_ronne_module.py`: it issues one HTTP request for
ensemble weather data, extracts metadata, reshapes the hourly response into a
polars table (one `time` column plus one column per (variable, ensemble
member) pair), saves the table as CSV, and returns `(metadata, table)`.

The embedding below models the external collaborators faithfully at the
granularity the code uses them:
  * the API response is a record whose accessors may fail (a malformed
    payload raises on access in the source), modelled with `Option` fields;
  * `pl.datetime_range(start, end, interval="1h", closed="left")` over
    epoch-second timestamps (datetimes are represented by their epoch
    seconds; the local-time rendering of the source is an order-preserving
    shift that no claim inspects);
  * `DataFrame.with_columns(pl.Series(name, values))` appends a column, or
    replaces in place an existing column of the same name, and raises a
    shape error when the series length differs from the frame height;
  * `write_csv` / `read_csv` as header-plus-string-rows serialization;
  * wall-clock time and write success are explicit parameters
    (`datetime.now()` and the filesystem are exogenous to the code).

Effects are explicit: a fetch returns its result, the list of files
written, and the log lines emitted.
-/

namespace EnergyDataHub

/-- The SDK `Variable` tag of an hourly variable: the source only
distinguishes `precipitation`, `rain`, and everything else. -/
inductive VarTag where
  | precipitation
  | rain
  | other (code : Nat)
deriving DecidableEq, Repr

/-- One `(variable, ensemble-member, value-array)` tuple of the hourly
block. `values` models `ValuesAsNumpy()`, which can raise on a malformed
payload. -/
structure HourlyVariable where
  var : VarTag
  ensembleMember : Nat
  values : Option (List Int)
deriving DecidableEq, Repr

/-- The hourly block of the response: start/end epoch seconds and the list
of variables, in response order. -/
structure Hourly where
  time : Option Int
  timeEnd : Option Int
  vars : List HourlyVariable
deriving DecidableEq, Repr

/-- The API response as the source accesses it. Every accessor the source
calls is a field; `none` models an access that raises. -/
structure Response where
  latitude : Option Int
  longitude : Option Int
  elevation : Option Int
  timezone : Option String
  timezoneAbbreviation : Option String
  utcOffsetSeconds : Option Int
  hourly : Option Hourly
deriving DecidableEq, Repr

/-- The metadata dictionary built at lines 107-112 of the source. -/
structure Metadata where
  coordinates : String
  elevation : String
  timezone : String
  utc_offset : String
deriving DecidableEq, Repr

/-- A polars DataFrame at the granularity the claims need: named columns
of equal length. Cell values are the numbers the API returned. -/
structure DataFrame where
  cols : List (String × List Int)
deriving DecidableEq, Repr

/-- Frame height: the common column length (0 for a frame with no columns). -/
def DataFrame.height (df : DataFrame) : Nat :=
  match df.cols with
  | [] => 0
  | c :: _ => c.2.length

/-- polars `with_columns` name resolution: replace an existing column of
the same name in place, otherwise append at the end. -/
def upsert (cols : List (String × List Int)) (name : String) (vals : List Int) :
    List (String × List Int) :=
  match cols with
  | [] => [(name, vals)]
  | c :: cs => if c.1 = name then (name, vals) :: cs else c :: upsert cs name vals

/-- Model of `df.with_columns(pl.Series(name, vals))`: a length-1 series
is first broadcast to the frame height (polars `new_from_index` when
`series.len() == 1 && height > 1`); after that, a series whose length
differs from the frame height raises a shape error. -/
def DataFrame.with_column (df : DataFrame) (name : String) (vals : List Int) :
    Except String DataFrame :=
  let vals2 := if vals.length = 1 ∧ 1 < df.height
    then List.replicate df.height (vals.headD 0) else vals
  if vals2.length = df.height then Except.ok ⟨upsert df.cols name vals2⟩
  else Except.error "ShapeError: series length does not match frame height"

/-- Column lookup by name (first match). -/
def DataFrame.getColumn (df : DataFrame) (name : String) : Option (List Int) :=
  (df.cols.find? (fun c => c.1 == name)).map (fun c => c.2)

/-- A CSV file: header row and data rows of rendered cells. -/
structure CsvFile where
  header : List String
  rows : List (List String)
deriving DecidableEq, Repr

/-- Model of `df.write_csv`: one header row of column names, one data row
per frame row, cells rendered as text. -/
def DataFrame.write_csv (df : DataFrame) : CsvFile :=
  { header := df.cols.map (fun c => c.1),
    rows := (List.range df.height).map
      (fun i => df.cols.map (fun c => toString (c.2.getD i 0))) }

/-- Model of `pl.read_csv`: one column per header entry, holding that
entry's cell from each row, parsed back to a number. -/
def read_csv (f : CsvFile) : DataFrame :=
  { cols := f.header.enum.map
      (fun p => (p.2, f.rows.map (fun row => ((row.getD p.1 "").toInt?).getD 0))) }

/-- An accessor call on the response: yields the field or raises. -/
def req {α : Type} (o : Option α) (msg : String) : Except String α :=
  match o with
  | some a => Except.ok a
  | none => Except.error msg

/-- Metadata extraction, lines 107-112 of the source: formats four header
fields of the response; any failing accessor aborts the stage. -/
def extract_metadata (r : Response) : Except String Metadata := do
  let lat ← req r.latitude "Latitude"
  let lon ← req r.longitude "Longitude"
  let elev ← req r.elevation "Elevation"
  let tz ← req r.timezone "Timezone"
  let tzAbbr ← req r.timezoneAbbreviation "TimezoneAbbreviation"
  let utc ← req r.utcOffsetSeconds "UtcOffsetSeconds"
  Except.ok
    { coordinates := toString lat ++ "°N " ++ toString lon ++ "°E",
      elevation := toString elev ++ " m asl",
      timezone := tz ++ " " ++ tzAbbr,
      utc_offset := toString utc ++ " s" }

/-- Number of points of the half-open hourly range `[start, stop)`:
`start + 3600*i` for every `i` with `start + 3600*i < stop`. -/
def hourlyCount (start stop : Int) : Nat :=
  ((stop - start).toNat + 3599) / 3600

/-- Model of `pl.datetime_range(start, stop, interval="1h",
closed="left")`: the hourly points of `[start, stop)`; raises when
`stop < start`. -/
def datetime_range (start stop : Int) : Except String (List Int) :=
  if stop < start then
    Except.error "ComputeError: range end before start"
  else
    Except.ok ((List.range (hourlyCount start stop)).map
      (fun i => start + 3600 * Int.ofNat i))

/-- Column name of an ensemble variable: the source's
`f"precipitation_member{member}"` / `f"rain_member{member}"`. -/
def memberName (stem : String) (v : HourlyVariable) : String :=
  stem ++ toString v.ensembleMember

/-- One of the two column-adding loops (lines 139-150): for each variable,
read its values and add the column `stem ++ member`. -/
def addMembers (df : DataFrame) (stem : String) :
    List HourlyVariable → Except String DataFrame
  | [] => Except.ok df
  | v :: vs =>
    match v.values with
    | none => Except.error "ValuesAsNumpy"
    | some vals =>
      match df.with_column (memberName stem v) vals with
      | Except.error e => Except.error e
      | Except.ok df2 => addMembers df2 stem vs

/-- The hourly-processing stage (lines 119-150): build the time axis, then
append the precipitation columns, then the rain columns. -/
def process_hourly (r : Response) : Except String DataFrame :=
  match r.hourly with
  | none => Except.error "Hourly"
  | some h =>
    match h.time with
    | none => Except.error "Time"
    | some t =>
      match h.timeEnd with
      | none => Except.error "TimeEnd"
      | some te =>
        match datetime_range t te with
        | Except.error e => Except.error e
        | Except.ok axis =>
          let hourly_precipitation := h.vars.filter
            (fun v => decide (v.var = VarTag.precipitation))
          let hourly_rain := h.vars.filter
            (fun v => decide (v.var = VarTag.rain))
          let df0 : DataFrame := ⟨[("time", axis)]⟩
          match addMembers df0 "precipitation_member" hourly_precipitation with
          | Except.error e => Except.error e
          | Except.ok df1 => addMembers df1 "rain_member" hourly_rain

/-- A wall-clock instant, as the fields `strftime` reads. -/
structure Timestamp where
  year : Nat
  month : Nat
  day : Nat
  hour : Nat
  minute : Nat
  second : Nat
deriving DecidableEq, Repr

/-- Zero-padded two-digit field of `strftime`. -/
def pad2 (n : Nat) : String :=
  if n < 10 then "0" ++ toString n else toString n

/-- Zero-padded four-digit year field of `strftime`. -/
def pad4 (n : Nat) : String :=
  if n < 10 then "000" ++ toString n
  else if n < 100 then "00" ++ toString n
  else if n < 1000 then "0" ++ toString n
  else toString n

/-- Model of `datetime.now().strftime("%Y%m%d_%H%M%S")`. -/
def strftimeStamp (t : Timestamp) : String :=
  pad4 t.year ++ pad2 t.month ++ pad2 t.day ++ "_" ++
    pad2 t.hour ++ pad2 t.minute ++ pad2 t.second

/-- The output filename built at line 64 of the source. -/
def csv_filename (start_date end_date : String) (now : Timestamp) : String :=
  "weather_data_" ++ start_date ++ "_to_" ++ end_date ++ "_" ++
    strftimeStamp now ++ ".csv"

/-- Log severity of the source's logger calls. -/
inductive Level where
  | info
  | debug
  | error
deriving DecidableEq, Repr

/-- One emitted log line. -/
structure LogEntry where
  level : Level
  msg : String
deriving DecidableEq, Repr

/-- The failure kinds of the pipeline, named as in the design: transport
failure, malformed-response/assembly failure, file-write failure. -/
inductive FetchError where
  | requestError (msg : String)
  | dataProcessingError (msg : String)
  | persistenceError (msg : String)
deriving DecidableEq, Repr

/-- Decidable equality of stage outcomes, for concrete evaluation. -/
instance exceptDecEq {ε α : Type} [DecidableEq ε] [DecidableEq α] :
    DecidableEq (Except ε α) := fun x y =>
  match x, y with
  | Except.error a, Except.error b =>
    if h : a = b then Decidable.isTrue (by rw [h])
    else Decidable.isFalse (by simp [h])
  | Except.error _, Except.ok _ => Decidable.isFalse (by simp)
  | Except.ok _, Except.error _ => Decidable.isFalse (by simp)
  | Except.ok a, Except.ok b =>
    if h : a = b then Decidable.isTrue (by rw [h])
    else Decidable.isFalse (by simp [h])

/-- The observable outcome of one `fetch_weather_data` call: the returned
value or propagated failure, the files written, and the log emitted. -/
structure FetchOutcome where
  result : Except FetchError (Metadata × DataFrame)
  filesWritten : List (String × CsvFile)
  log : List LogEntry
deriving DecidableEq, Repr

/-- Model of `save_dataframe` (lines 54-72): build the timestamped
filename, write the CSV; on success log info, on write failure log error
and re-raise. `writeOk` is the exogenous filesystem outcome. -/
def save_dataframe (output_dir : String) (df : DataFrame)
    (start_date end_date : String) (now : Timestamp) (writeOk : Bool) :
    Except String (String × CsvFile) × List LogEntry :=
  let filepath := output_dir ++ "/" ++ csv_filename start_date end_date now
  if writeOk then
    (Except.ok (filepath, df.write_csv),
     [⟨Level.info, "DataFrame saved successfully to " ++ filepath⟩])
  else
    (Except.error "write failed",
     [⟨Level.error, "Failed to save DataFrame: write failed"⟩])

/-- Model of `fetch_weather_data` (lines 74-161): the four-stage
pipeline. The
transport outcome (`client.weather_api`), the wall clock and the
filesystem outcome are explicit parameters; everything else follows the
source line by line. A save failure is logged by `save_dataframe` and
again by the enclosing hourly-processing handler (line 160), matching the
nesting of the source's try blocks. -/
def fetch_weather_data (output_dir : String)
    (transport : Except String (List Response)) (now : Timestamp)
    (writeOk : Bool) (start_date end_date : String) : FetchOutcome :=
  let log0 := [LogEntry.mk Level.info
    ("Fetching weather data from " ++ start_date ++ " to " ++ end_date)]
  match transport with
  | Except.error e =>
    { result := Except.error (FetchError.requestError e),
      filesWritten := [],
      log := log0 ++ [⟨Level.error, "API request failed: " ++ e⟩] }
  | Except.ok responses =>
    match responses with
    | [] =>
      { result := Except.error (FetchError.requestError "list index out of range"),
        filesWritten := [],
        log := log0 ++ [⟨Level.error, "API request failed: list index out of range"⟩] }
    | response :: _ =>
      let log1 := log0 ++ [⟨Level.debug, "Successfully received API response"⟩]
      match extract_metadata response with
      | Except.error e =>
        { result := Except.error (FetchError.dataProcessingError e),
          filesWritten := [],
          log := log1 ++ [⟨Level.error, "Failed to extract metadata: " ++ e⟩] }
      | Except.ok metadata =>
        let log2 := log1 ++ [⟨Level.debug, "Extracted metadata"⟩]
        match process_hourly response with
        | Except.error e =>
          { result := Except.error (FetchError.dataProcessingError e),
            filesWritten := [],
            log := log2 ++ [⟨Level.error, "Failed to process hourly data: " ++ e⟩] }
        | Except.ok df =>
          let log3 := log2 ++ [⟨Level.info, "Successfully processed data"⟩]
          match save_dataframe output_dir df start_date end_date now writeOk with
          | (Except.ok file, saveLog) =>
            { result := Except.ok (metadata, df),
              filesWritten := [file],
              log := log3 ++ saveLog }
          | (Except.error e, saveLog) =>
            { result := Except.error (FetchError.persistenceError e),
              filesWritten := [],
              log := log3 ++ saveLog ++
                [⟨Level.error, "Failed to process hourly data: " ++ e⟩] }

/-- A frame is well-formed when every column has the common height. -/
def DataFrame.wellformed (df : DataFrame) : Prop :=
  ∀ c ∈ df.cols, c.2.length = df.height

/-- Reference decimal digit list (most significant first) of a natural
number, used to reason about the `f"...{member}"` renderings. -/
def decDigits (n : Nat) : List Char :=
  if _ : n < 10 then [Nat.digitChar n]
  else decDigits (n / 10) ++ [Nat.digitChar (n % 10)]
termination_by n
decreasing_by omega

/-- Decimal reading of a digit list. -/
def decVal (l : List Char) : Nat :=
  l.foldl (fun acc c => 10 * acc + (c.toNat - 48)) 0

/-- Convenience constructor for one hourly variable of a test response. -/
def mkVar (tag : VarTag) (m : Nat) (vals : List Int) : HourlyVariable :=
  { var := tag, ensembleMember := m, values := some vals }

/-- A fully populated response around a given hourly block. -/
def baseResp (hb : Hourly) : Response :=
  { latitude := some 55, longitude := some 14, elevation := some 10,
    timezone := some "GMT", timezoneAbbreviation := some "GMT",
    utcOffsetSeconds := some 0, hourly := some hb }

/-- A wall-clock instant used in concrete runs. -/
def ts0 : Timestamp := ⟨2025, 2, 12, 9, 5, 3⟩

/-- A two-hour response listing a rain variable before a precipitation
variable. -/
def okHourly : Hourly :=
  { time := some 0, timeEnd := some 7200,
    vars := [mkVar VarTag.rain 0 [1, 2], mkVar VarTag.precipitation 0 [3, 4]] }

/-- The response built from `okHourly`. -/
def okResp : Response := baseResp okHourly

/-- The metadata the pipeline extracts from `okResp`. -/
def okMeta : Metadata :=
  { coordinates := "55°N 14°E", elevation := "10 m asl",
    timezone := "GMT GMT", utc_offset := "0 s" }

/-- The table the pipeline builds from `okResp`. -/
def okDf : DataFrame :=
  ⟨[("time", [0, 3600]), ("precipitation_member0", [3, 4]),
    ("rain_member0", [1, 2])]⟩

/-- A response with two precipitation variables sharing ensemble member 0. -/
def dupHourly : Hourly :=
  { time := some 0, timeEnd := some 7200,
    vars := [mkVar VarTag.precipitation 0 [1, 2],
             mkVar VarTag.precipitation 0 [3, 4]] }

/-- The response built from `dupHourly`. -/
def dupResp : Response := baseResp dupHourly

/-- A response whose precipitation values form a unit-length series over
a two-hour window (the polars broadcast case). -/
def badHourly : Hourly :=
  { time := some 0, timeEnd := some 7200,
    vars := [mkVar VarTag.precipitation 0 [5]] }

/-- The response built from `badHourly`. -/
def badResp : Response := baseResp badHourly

/-- A response whose precipitation values have a non-unit length that
differs from the axis length. -/
def bad3Hourly : Hourly :=
  { time := some 0, timeEnd := some 7200,
    vars := [mkVar VarTag.precipitation 0 [5, 6, 7]] }

/-- The response built from `bad3Hourly`. -/
def bad3Resp : Response := baseResp bad3Hourly

/-- A response whose latitude accessor fails. -/
def noMetaResp : Response := { baseResp okHourly with latitude := none }

/-- A response whose only variable carries an unrelated tag. -/
def otherHourly : Hourly :=
  { time := some 0, timeEnd := some 7200, vars := [mkVar (VarTag.other 7) 3 [9, 9]] }

/-- The response built from `otherHourly`. -/
def otherResp : Response := baseResp otherHourly

theorem mem_upsert {cols : List (String × List Int)} {name : String}
    {vals : List Int} {c : String × List Int} (hc : c ∈ upsert cols name vals) :
    c ∈ cols ∨ c = (name, vals) := by
  induction cols with
  | nil => simp [upsert] at hc; simp [hc]
  | cons d ds ih =>
    simp only [upsert] at hc
    by_cases hd : d.1 = name
    · simp [hd] at hc
      rcases hc with h | h
      · exact Or.inr h
      · exact Or.inl (List.mem_cons_of_mem _ h)
    · simp [hd] at hc
      rcases hc with h | h
      · exact Or.inl (by simp [h])
      · rcases ih h with h2 | h2
        · exact Or.inl (List.mem_cons_of_mem _ h2)
        · exact Or.inr h2

theorem upsert_of_not_mem {cols : List (String × List Int)} {name : String}
    {vals : List Int} (h : name ∉ cols.map Prod.fst) :
    upsert cols name vals = cols ++ [(name, vals)] := by
  induction cols with
  | nil => rfl
  | cons d ds ih =>
    simp only [List.map_cons, List.mem_cons] at h
    push_neg at h
    simp only [upsert, List.cons_append]
    rw [if_neg (fun he => h.1 he.symm), ih h.2]

theorem with_column_ok {df df2 : DataFrame} {name : String} {vals : List Int}
    (h : df.with_column name vals = Except.ok df2) :
    ∃ vals2, vals2.length = df.height ∧ df2.cols = upsert df.cols name vals2 := by
  simp only [DataFrame.with_column] at h
  by_cases hb : vals.length = 1 ∧ 1 < df.height
  · rw [if_pos hb] at h
    rw [if_pos (List.length_replicate df.height (vals.headD 0))] at h
    simp only [Except.ok.injEq] at h
    exact ⟨List.replicate df.height (vals.headD 0),
      List.length_replicate df.height (vals.headD 0), by rw [← h]⟩
  · rw [if_neg hb] at h
    by_cases hl : vals.length = df.height
    · rw [if_pos hl] at h
      simp only [Except.ok.injEq] at h
      exact ⟨vals, hl, by rw [← h]⟩
    · rw [if_neg hl] at h
      exact absurd h (by simp)

theorem with_column_ok_len {df df2 : DataFrame} {name : String} {vals : List Int}
    (h : df.with_column name vals = Except.ok df2) :
    vals.length = df.height ∨ (vals.length = 1 ∧ 1 < df.height) := by
  simp only [DataFrame.with_column] at h
  by_cases hb : vals.length = 1 ∧ 1 < df.height
  · exact Or.inr hb
  · rw [if_neg hb] at h
    by_cases hl : vals.length = df.height
    · exact Or.inl hl
    · rw [if_neg hl] at h
      exact absurd h (by simp)

theorem upsert_height {cols : List (String × List Int)} {name : String}
    {vals : List Int}
    (hl : vals.length = (DataFrame.mk cols).height) :
    (DataFrame.mk (upsert cols name vals)).height = (DataFrame.mk cols).height := by
  cases cols with
  | nil => simpa [upsert, DataFrame.height] using hl
  | cons d ds =>
    simp only [upsert]
    by_cases hd : d.1 = name
    · simpa [hd, DataFrame.height] using hl
    · simp [hd, DataFrame.height]

theorem with_column_height {df df2 : DataFrame} {name : String} {vals : List Int}
    (h : df.with_column name vals = Except.ok df2) : df2.height = df.height := by
  obtain ⟨vals2, hl, hcols⟩ := with_column_ok h
  have := @upsert_height df.cols name vals2 hl
  cases df2 with
  | mk cols2 => cases df with
    | mk cols1 => simp only at hcols; rw [hcols]; exact this

theorem with_column_wellformed {df df2 : DataFrame} {name : String}
    {vals : List Int} (hwf : df.wellformed)
    (h : df.with_column name vals = Except.ok df2) : df2.wellformed := by
  obtain ⟨vals2, hl, hcols⟩ := with_column_ok h
  intro c hc
  rw [with_column_height h]
  rw [hcols] at hc
  rcases mem_upsert hc with h2 | h2
  · exact hwf c h2
  · rw [h2]; exact hl

theorem addMembers_ok_height {stem : String} :
    ∀ {vs : List HourlyVariable} {df df2 : DataFrame},
      addMembers df stem vs = Except.ok df2 → df2.height = df.height := by
  intro vs
  induction vs with
  | nil => intro df df2 h; simp [addMembers] at h; rw [h]
  | cons v vs ih =>
    intro df df2 h
    simp only [addMembers] at h
    cases hv : v.values with
    | none => simp [hv] at h
    | some vals =>
      simp only [hv] at h
      cases hw : df.with_column (memberName stem v) vals with
      | error e => simp [hw] at h
      | ok dfm =>
        simp only [hw] at h
        rw [ih h, with_column_height hw]

theorem addMembers_wellformed {stem : String} :
    ∀ {vs : List HourlyVariable} {df df2 : DataFrame}, df.wellformed →
      addMembers df stem vs = Except.ok df2 → df2.wellformed := by
  intro vs
  induction vs with
  | nil => intro df df2 hwf h; simp [addMembers] at h; rw [← h]; exact hwf
  | cons v vs ih =>
    intro df df2 hwf h
    simp only [addMembers] at h
    cases hv : v.values with
    | none => simp [hv] at h
    | some vals =>
      simp only [hv] at h
      cases hw : df.with_column (memberName stem v) vals with
      | error e => simp [hw] at h
      | ok dfm =>
        simp only [hw] at h
        exact ih (with_column_wellformed hwf hw) h

theorem addMembers_values_len {stem : String} :
    ∀ {vs : List HourlyVariable} {df df2 : DataFrame},
      addMembers df stem vs = Except.ok df2 →
      ∀ v ∈ vs, ∃ l, v.values = some l ∧
        (l.length = df.height ∨ (l.length = 1 ∧ 1 < df.height)) := by
  intro vs
  induction vs with
  | nil => intro df df2 _ v hv; exact absurd hv (by simp)
  | cons w ws ih =>
    intro df df2 h v hv
    simp only [addMembers] at h
    cases hw : w.values with
    | none => simp [hw] at h
    | some vals =>
      simp only [hw] at h
      cases hc : df.with_column (memberName stem w) vals with
      | error e => simp [hc] at h
      | ok dfm =>
        simp only [hc] at h
        rcases List.mem_cons.mp hv with rfl | hv2
        · exact ⟨vals, hw, with_column_ok_len hc⟩
        · obtain ⟨l, hl1, hl2⟩ := ih h v hv2
          rw [with_column_height hc] at hl2
          exact ⟨l, hl1, hl2⟩

theorem toDigitsCore_eq_decDigits :
    ∀ (f n : Nat) (ds : List Char), n < f →
      Nat.toDigitsCore 10 f n ds = decDigits n ++ ds := by
  intro f
  induction f with
  | zero => intro n ds h; omega
  | succ f ih =>
    intro n ds h
    simp only [Nat.toDigitsCore]
    by_cases h10 : n / 10 = 0
    · rw [if_pos h10, decDigits]
      have hn : n < 10 := by omega
      rw [dif_pos hn, Nat.mod_eq_of_lt hn]
      rfl
    · rw [if_neg h10, ih (n / 10) _ (by omega)]
      conv_rhs => rw [decDigits]
      have hn : ¬ n < 10 := by omega
      rw [dif_neg hn, List.append_assoc]
      rfl

theorem natRepr_eq_decDigits (n : Nat) : Nat.repr n = (decDigits n).asString := by
  have : Nat.repr n = (Nat.toDigitsCore 10 (n + 1) n []).asString := rfl
  rw [this, toDigitsCore_eq_decDigits (n + 1) n [] (by omega), List.append_nil]

theorem decDigits_foldl :
    ∀ n a, (decDigits n).foldl (fun acc c => 10 * acc + (c.toNat - 48)) a =
      a * 10 ^ (decDigits n).length + n := by
  have hc : ∀ d, d < 10 → (Nat.digitChar d).toNat - 48 = d := by decide
  intro n
  induction n using Nat.strong_induction_on with
  | _ n ih =>
    intro a
    by_cases h : n < 10
    · rw [decDigits, dif_pos h]
      simp only [List.foldl, List.length_cons, List.length_nil]
      rw [hc n h]
      ring
    · rw [decDigits, dif_neg h]
      rw [List.foldl_append, ih (n / 10) (by omega) a]
      simp only [List.foldl, List.length_append, List.length_cons, List.length_nil]
      rw [hc (n % 10) (by omega)]
      have hpow : 10 ^ ((decDigits (n / 10)).length + (0 + 1)) =
          10 ^ (decDigits (n / 10)).length * 10 := by
        rw [Nat.zero_add, pow_succ]
      rw [hpow, ← mul_assoc]
      generalize a * 10 ^ (decDigits (n / 10)).length = k
      omega

theorem decVal_decDigits (n : Nat) : decVal (decDigits n) = n := by
  unfold decVal
  rw [decDigits_foldl n 0]
  simp

theorem natRepr_inj {m n : Nat} (h : Nat.repr m = Nat.repr n) : m = n := by
  rw [natRepr_eq_decDigits, natRepr_eq_decDigits] at h
  have hd : decDigits m = decDigits n := congrArg String.data h
  have := congrArg decVal hd
  rwa [decVal_decDigits, decVal_decDigits] at this

theorem memberName_inj {stem : String} {v w : HourlyVariable}
    (h : memberName stem v = memberName stem w) :
    v.ensembleMember = w.ensembleMember := by
  unfold memberName at h
  have hd := congrArg String.data h
  rw [String.data_append, String.data_append] at hd
  have hs : (toString v.ensembleMember).data = (toString w.ensembleMember).data :=
    List.append_cancel_left hd
  exact natRepr_inj (String.ext hs)

theorem memberName_stem_length (stem : String) (v : HourlyVariable) :
    stem.length ≤ (memberName stem v).length := by
  unfold memberName
  rw [String.length_append]
  omega

theorem precipName_ne_time (v : HourlyVariable) :
    memberName "precipitation_member" v ≠ "time" := by
  intro h
  have h1 := memberName_stem_length "precipitation_member" v
  rw [h] at h1
  revert h1
  decide

theorem rainName_ne_time (v : HourlyVariable) :
    memberName "rain_member" v ≠ "time" := by
  intro h
  have h1 := memberName_stem_length "rain_member" v
  rw [h] at h1
  revert h1
  decide

theorem precipName_ne_rainName (v w : HourlyVariable) :
    memberName "precipitation_member" v ≠ memberName "rain_member" w := by
  intro h
  unfold memberName at h
  have hd := congrArg String.data h
  rw [String.data_append, String.data_append] at hd
  have h1 : "precipitation_member".data = 'p' :: "recipitation_member".data := by
    decide
  have h2 : "rain_member".data = 'r' :: "ain_member".data := by decide
  rw [h1, h2] at hd
  simp only [List.cons_append, List.cons.injEq] at hd
  exact absurd hd.1 (by decide)

theorem addMembers_head {stem : String} :
    ∀ {vs : List HourlyVariable} {df df2 : DataFrame} {c : String × List Int},
      addMembers df stem vs = Except.ok df2 →
      df.cols.head? = some c →
      (∀ v ∈ vs, memberName stem v ≠ c.1) →
      df2.cols.head? = some c := by
  intro vs
  induction vs with
  | nil =>
    intro df df2 c h hh _
    simp [addMembers] at h
    rw [← h]; exact hh
  | cons v vs ih =>
    intro df df2 c h hh hne
    simp only [addMembers] at h
    cases hv : v.values with
    | none => simp [hv] at h
    | some vals =>
      simp only [hv] at h
      cases hw : df.with_column (memberName stem v) vals with
      | error e => simp [hw] at h
      | ok dfm =>
        simp only [hw] at h
        refine ih h ?_ (fun w hw2 => hne w (List.mem_cons_of_mem _ hw2))
        obtain ⟨vals2, -, hcols⟩ := with_column_ok hw
        cases hdc : df.cols with
        | nil => rw [hdc] at hh; simp at hh
        | cons c0 rest =>
          rw [hdc] at hh
          simp only [List.head?_cons, Option.some.injEq] at hh
          rw [hcols, hdc, upsert]
          rw [if_neg ?_]
          · simp
            exact hh
          · rw [hh]
            exact fun he => hne v (List.mem_cons_self v vs) he.symm

theorem addMembers_cols_names {stem : String} :
    ∀ {vs : List HourlyVariable} {df df2 : DataFrame},
      addMembers df stem vs = Except.ok df2 →
      (∀ v ∈ vs, memberName stem v ∉ df.cols.map Prod.fst) →
      (vs.map (memberName stem)).Nodup →
      df2.cols.map Prod.fst = df.cols.map Prod.fst ++ vs.map (memberName stem) := by
  intro vs
  induction vs with
  | nil =>
    intro df df2 h _ _
    simp [addMembers] at h
    rw [← h]; simp
  | cons v vs ih =>
    intro df df2 h hfresh hnd
    simp only [addMembers] at h
    cases hv : v.values with
    | none => simp [hv] at h
    | some vals =>
      simp only [hv] at h
      cases hw : df.with_column (memberName stem v) vals with
      | error e => simp [hw] at h
      | ok dfm =>
        simp only [hw] at h
        obtain ⟨vals2, -, hcols⟩ := with_column_ok hw
        rw [upsert_of_not_mem (hfresh v (List.mem_cons_self v vs))] at hcols
        simp only [List.map_cons, List.nodup_cons] at hnd
        have hdfm : dfm.cols.map Prod.fst = df.cols.map Prod.fst ++ [memberName stem v] := by
          rw [hcols]; simp
        have hfresh2 : ∀ w ∈ vs, memberName stem w ∉ dfm.cols.map Prod.fst := by
          intro w hw2
          rw [hdfm]
          simp only [List.mem_append, List.mem_singleton]
          push_neg
          refine ⟨hfresh w (List.mem_cons_of_mem _ hw2), ?_⟩
          intro he
          exact hnd.1 (he ▸ List.mem_map.mpr ⟨w, hw2, rfl⟩)
        rw [ih h hfresh2 hnd.2, hdfm, List.append_assoc]
        simp

theorem nodup_map_of_map {α β γ : Type} {l : List α} {f : α → β} {g : α → γ}
    (hg : (l.map g).Nodup)
    (h : ∀ x ∈ l, ∀ y ∈ l, f x = f y → g x = g y) : (l.map f).Nodup := by
  induction l with
  | nil => simp
  | cons a l ih =>
    simp only [List.map_cons, List.nodup_cons] at hg ⊢
    refine ⟨?_, ih hg.2 (fun x hx y hy =>
      h x (List.mem_cons_of_mem _ hx) y (List.mem_cons_of_mem _ hy))⟩
    intro hmem
    obtain ⟨b, hb, hfb⟩ := List.mem_map.mp hmem
    exact hg.1 (List.mem_map.mpr
      ⟨b, hb, h b (List.mem_cons_of_mem _ hb) a (List.mem_cons_self a l) hfb⟩)

theorem getColumn_of_head {df : DataFrame} {name : String} {vals : List Int}
    (h : df.cols.head? = some (name, vals)) : df.getColumn name = some vals := by
  cases hc : df.cols with
  | nil => rw [hc] at h; simp at h
  | cons c rest =>
    rw [hc] at h
    simp only [List.head?_cons, Option.some.injEq] at h
    unfold DataFrame.getColumn
    rw [hc, h]
    simp [List.find?]

theorem process_hourly_ok {r : Response} {df : DataFrame}
    (h : process_hourly r = Except.ok df) :
    ∃ hb t te axis df1,
      r.hourly = some hb ∧ hb.time = some t ∧ hb.timeEnd = some te ∧
      datetime_range t te = Except.ok axis ∧
      addMembers ⟨[("time", axis)]⟩ "precipitation_member"
        (hb.vars.filter (fun v => decide (v.var = VarTag.precipitation))) =
        Except.ok df1 ∧
      addMembers df1 "rain_member"
        (hb.vars.filter (fun v => decide (v.var = VarTag.rain))) = Except.ok df := by
  unfold process_hourly at h
  cases hh : r.hourly with
  | none => simp [hh] at h
  | some hb =>
    simp only [hh] at h
    cases ht : hb.time with
    | none => simp [ht] at h
    | some t =>
      simp only [ht] at h
      cases hte : hb.timeEnd with
      | none => simp [hte] at h
      | some te =>
        simp only [hte] at h
        cases hdr : datetime_range t te with
        | error e => simp [hdr] at h
        | ok axis =>
          simp only [hdr] at h
          cases hp : addMembers ⟨[("time", axis)]⟩ "precipitation_member"
              (hb.vars.filter (fun v => decide (v.var = VarTag.precipitation))) with
          | error e => simp [hp] at h
          | ok df1 =>
            simp only [hp] at h
            exact ⟨hb, t, te, axis, df1, rfl, ht, hte, hdr, hp, h⟩

theorem fetch_ok_inv {output_dir : String} {transport : Except String (List Response)}
    {now : Timestamp} {writeOk : Bool} {sd ed : String} {md : Metadata}
    {df : DataFrame}
    (h : (fetch_weather_data output_dir transport now writeOk sd ed).result =
      Except.ok (md, df)) :
    ∃ r rs, transport = Except.ok (r :: rs) ∧ extract_metadata r = Except.ok md ∧
      process_hourly r = Except.ok df ∧ writeOk = true := by
  unfold fetch_weather_data at h
  cases htr : transport with
  | error e => simp [htr] at h
  | ok responses =>
    simp only [htr] at h
    cases responses with
    | nil => simp at h
    | cons r rs =>
      cases hm : extract_metadata r with
      | error e => simp [hm] at h
      | ok md2 =>
        simp only [hm] at h
        cases hp : process_hourly r with
        | error e => simp [hp] at h
        | ok df2 =>
          simp only [hp] at h
          cases writeOk with
          | false => simp [save_dataframe] at h
          | true =>
            simp only [save_dataframe, if_true] at h
            simp only [Except.ok.injEq, Prod.mk.injEq] at h
            exact ⟨r, rs, rfl, by rw [hm, h.1], by rw [hp, h.2], rfl⟩

theorem fetch_ok_files {output_dir : String} {transport : Except String (List Response)}
    {now : Timestamp} {writeOk : Bool} {sd ed : String} {md : Metadata}
    {df : DataFrame}
    (h : (fetch_weather_data output_dir transport now writeOk sd ed).result =
      Except.ok (md, df)) :
    (fetch_weather_data output_dir transport now writeOk sd ed).filesWritten =
      [(output_dir ++ "/" ++ csv_filename sd ed now, df.write_csv)] := by
  obtain ⟨r, rs, htr, hm, hp, hw⟩ := fetch_ok_inv h
  rw [htr, hw] at h ⊢
  unfold fetch_weather_data at h ⊢
  simp only [hm, hp, save_dataframe, if_true] at h ⊢

theorem fetch_error_files {output_dir : String}
    {transport : Except String (List Response)} {now : Timestamp} {writeOk : Bool}
    {sd ed : String} {e : FetchError}
    (h : (fetch_weather_data output_dir transport now writeOk sd ed).result =
      Except.error e) :
    (fetch_weather_data output_dir transport now writeOk sd ed).filesWritten = [] := by
  unfold fetch_weather_data at h ⊢
  cases htr : transport with
  | error e2 => simp [htr]
  | ok responses =>
    simp only [htr] at h ⊢
    cases responses with
    | nil => simp
    | cons r rs =>
      cases hm : extract_metadata r with
      | error e2 => simp [hm]
      | ok md2 =>
        simp only [hm] at h ⊢
        cases hp : process_hourly r with
        | error e2 => simp [hp]
        | ok df2 =>
          simp only [hp] at h ⊢
          cases writeOk with
          | false => simp [save_dataframe]
          | true => simp [save_dataframe] at h

theorem datetime_range_ok {t te : Int} {axis : List Int}
    (h : datetime_range t te = Except.ok axis) :
    ¬ te < t ∧
      axis = (List.range (hourlyCount t te)).map (fun i => t + 3600 * Int.ofNat i) := by
  unfold datetime_range at h
  by_cases hlt : te < t
  · simp [hlt] at h
  · simp only [hlt, if_false, Except.ok.injEq] at h
    exact ⟨hlt, h.symm⟩

theorem process_hourly_shape {r : Response} {df : DataFrame}
    (h : process_hourly r = Except.ok df) :
    ∃ hb t te,
      r.hourly = some hb ∧ hb.time = some t ∧ hb.timeEnd = some te ∧ ¬ te < t ∧
      df.cols.head? =
        some ("time",
          (List.range (hourlyCount t te)).map (fun i => t + 3600 * Int.ofNat i)) ∧
      df.height = hourlyCount t te ∧
      df.wellformed := by
  obtain ⟨hb, t, te, axis, df1, hh, ht, hte, hdr, hp1, hp2⟩ := process_hourly_ok h
  obtain ⟨hlt, haxis⟩ := datetime_range_ok hdr
  have h0 : (DataFrame.mk [("time", axis)]).height = axis.length := rfl
  have hlen : axis.length = hourlyCount t te := by rw [haxis]; simp
  have hh1 := addMembers_ok_height hp1
  have hh2 := addMembers_ok_height hp2
  have hwf0 : (DataFrame.mk [("time", axis)]).wellformed := by
    intro c hc
    simp only [List.mem_singleton] at hc
    rw [hc]
    rfl
  have hhead0 : (DataFrame.mk [("time", axis)]).cols.head? = some ("time", axis) := rfl
  have hhead1 := addMembers_head hp1 hhead0 (fun v _ => precipName_ne_time v)
  have hhead := addMembers_head hp2 hhead1 (fun v _ => rainName_ne_time v)
  refine ⟨hb, t, te, hh, ht, hte, hlt, ?_, ?_, ?_⟩
  · rw [hhead, haxis]
  · rw [hh2, hh1, h0, hlen]
  · exact addMembers_wellformed (addMembers_wellformed hwf0 hp1) hp2

theorem process_hourly_names {r : Response} {df : DataFrame} {hb : Hourly}
    (h : process_hourly r = Except.ok df)
    (hh : r.hourly = some hb)
    (hndP : ((hb.vars.filter (fun v => decide (v.var = VarTag.precipitation))).map
        (memberName "precipitation_member")).Nodup)
    (hndR : ((hb.vars.filter (fun v => decide (v.var = VarTag.rain))).map
        (memberName "rain_member")).Nodup) :
    df.cols.map Prod.fst = "time" ::
      ((hb.vars.filter (fun v => decide (v.var = VarTag.precipitation))).map
        (memberName "precipitation_member") ++
       (hb.vars.filter (fun v => decide (v.var = VarTag.rain))).map
        (memberName "rain_member")) := by
  obtain ⟨hb2, t, te, axis, df1, hh2, ht, hte, hdr, hp1, hp2⟩ := process_hourly_ok h
  rw [hh] at hh2
  obtain rfl : hb2 = hb := by injection hh2.symm
  have hn0 : (DataFrame.mk [("time", axis)]).cols.map Prod.fst = ["time"] := rfl
  have hn1 := addMembers_cols_names hp1 ?_ hndP
  · have hn2 := addMembers_cols_names hp2 ?_ hndR
    · rw [hn2, hn1, hn0]
      simp
    · intro v hv
      rw [hn1, hn0]
      simp only [List.mem_append, List.mem_singleton, List.mem_map]
      push_neg
      refine ⟨fun he => rainName_ne_time v he, ?_⟩
      intro w _ he
      exact precipName_ne_rainName w v he
  · intro v _
    rw [hn0]
    simp only [List.mem_singleton]
    exact precipName_ne_time v

theorem read_csv_write_csv_names (df : DataFrame) :
    (read_csv df.write_csv).cols.map Prod.fst = df.cols.map Prod.fst := by
  unfold read_csv DataFrame.write_csv
  rw [List.map_map]
  exact List.enum_map_snd _

theorem read_csv_write_csv_height (df : DataFrame) :
    (read_csv df.write_csv).height = df.height := by
  unfold read_csv DataFrame.write_csv DataFrame.height
  cases hc : df.cols with
  | nil => rfl
  | cons c rest => simp [List.enum, List.enumFrom]

/-- C2: when the transport fails, `fetch_weather_data` propagates the
request error to the caller and writes no output file. -/
theorem claim_C2 (output_dir e : String) (now : Timestamp) (writeOk : Bool)
    (sd ed : String) :
    (fetch_weather_data output_dir (Except.error e) now writeOk sd ed).result =
      Except.error (FetchError.requestError e) ∧
    (fetch_weather_data output_dir (Except.error e) now writeOk sd ed).filesWritten =
      [] := by
  exact ⟨rfl, rfl⟩

/-- C7: every successful call writes exactly one file, into the output
directory, named `weather_data_{startDate}_to_{endDate}_{timestamp}.csv`
with the wall-clock save instant formatted as `YYYYMMDD_HHMMSS`. -/
theorem claim_C7 {output_dir : String} {transport : Except String (List Response)}
    {now : Timestamp} {writeOk : Bool} {sd ed : String} {md : Metadata}
    {df : DataFrame}
    (h : (fetch_weather_data output_dir transport now writeOk sd ed).result =
      Except.ok (md, df)) :
    (fetch_weather_data output_dir transport now writeOk sd ed).filesWritten =
      [(output_dir ++ "/" ++
          ("weather_data_" ++ sd ++ "_to_" ++ ed ++ "_" ++
            (pad4 now.year ++ pad2 now.month ++ pad2 now.day ++ "_" ++
              pad2 now.hour ++ pad2 now.minute ++ pad2 now.second) ++ ".csv"),
        df.write_csv)] := by
  rw [fetch_ok_files h]
  rfl

/-- C7 witness: a concrete successful call writes exactly the
pattern-named file. -/
theorem claim_C7_witness :
    (fetch_weather_data "data" (Except.ok [okResp]) ts0 true
        "2025-02-12" "2025-02-13").result = Except.ok (okMeta, okDf) ∧
    (fetch_weather_data "data" (Except.ok [okResp]) ts0 true
        "2025-02-12" "2025-02-13").filesWritten =
      [("data" ++ "/" ++
          ("weather_data_" ++ "2025-02-12" ++ "_to_" ++ "2025-02-13" ++ "_" ++
            (pad4 ts0.year ++ pad2 ts0.month ++ pad2 ts0.day ++ "_" ++
              pad2 ts0.hour ++ pad2 ts0.minute ++ pad2 ts0.second) ++ ".csv"),
        okDf.write_csv)] :=
  ⟨by decide,
    @claim_C7 "data" (Except.ok [okResp]) ts0 true "2025-02-12" "2025-02-13"
      okMeta okDf (by decide)⟩

/-- C8: writing the produced table to CSV and reading it back preserves
the column names and the row count. -/
theorem claim_C8 {output_dir : String} {transport : Except String (List Response)}
    {now : Timestamp} {writeOk : Bool} {sd ed : String} {md : Metadata}
    {df : DataFrame}
    (h : (fetch_weather_data output_dir transport now writeOk sd ed).result =
      Except.ok (md, df)) :
    (read_csv df.write_csv).cols.map Prod.fst = df.cols.map Prod.fst ∧
    (read_csv df.write_csv).height = df.height :=
  ⟨read_csv_write_csv_names df, read_csv_write_csv_height df⟩

/-- C8 witness: the concrete produced table round-trips its column names
and row count through CSV. -/
theorem claim_C8_witness :
    (fetch_weather_data "data" (Except.ok [okResp]) ts0 true "a" "b").result =
      Except.ok (okMeta, okDf) ∧
    (read_csv okDf.write_csv).cols.map Prod.fst = okDf.cols.map Prod.fst ∧
    (read_csv okDf.write_csv).height = okDf.height :=
  ⟨by decide,
    @claim_C8 "data" (Except.ok [okResp]) ts0 true "a" "b" okMeta okDf (by decide)⟩

/-- C9: when metadata extraction or table assembly fails (the processing
failure kind), no output file is written. -/
theorem claim_C9 (output_dir : String) (transport : Except String (List Response))
    (now : Timestamp) (writeOk : Bool) (sd ed m : String)
    (h : (fetch_weather_data output_dir transport now writeOk sd ed).result =
      Except.error (FetchError.dataProcessingError m)) :
    (fetch_weather_data output_dir transport now writeOk sd ed).filesWritten =
      [] :=
  fetch_error_files h

/-- C9 witness: a concrete run whose metadata extraction fails writes no
file. -/
theorem claim_C9_witness :
    (fetch_weather_data "data" (Except.ok [noMetaResp]) ts0 true "a" "b").result =
      Except.error (FetchError.dataProcessingError "Latitude") ∧
    (fetch_weather_data "data" (Except.ok [noMetaResp]) ts0 true "a" "b").filesWritten =
      [] :=
  ⟨by decide,
    claim_C9 "data" (Except.ok [noMetaResp]) ts0 true "a" "b" "Latitude" (by decide)⟩

/-- C1: on a successful call whose response carries an hourly-aligned
epoch window, the `time` column is the half-open hourly range
`[start, end)`: strictly increasing, consecutive entries exactly one hour
apart, start included, end excluded, length `(endEpoch - startEpoch) / 3600`. -/
theorem claim_C1 {output_dir : String} {transport : Except String (List Response)}
    {now : Timestamp} {writeOk : Bool} {sd ed : String} {md : Metadata}
    {df : DataFrame} {r : Response} {rs : List Response} {hb : Hourly} {t te : Int}
    (htr : transport = Except.ok (r :: rs))
    (hh : r.hourly = some hb) (ht : hb.time = some t) (hte : hb.timeEnd = some te)
    (hdvd : (3600 : Int) ∣ (te - t)) (hlt : t < te)
    (hres : (fetch_weather_data output_dir transport now writeOk sd ed).result =
      Except.ok (md, df)) :
    ∃ axis, df.getColumn "time" = some axis ∧
      axis.length = ((te - t) / 3600).toNat ∧
      List.Pairwise (fun a b => a < b) axis ∧
      List.Chain' (fun a b => b = a + 3600) axis ∧
      t ∈ axis ∧ te ∉ axis := by
  obtain ⟨r2, rs2, htr2, hm, hp, hw⟩ := fetch_ok_inv hres
  rw [htr] at htr2
  simp only [Except.ok.injEq, List.cons.injEq] at htr2
  obtain ⟨rfl, -⟩ := htr2
  obtain ⟨hb2, t2, te2, hh2, ht2, hte2, hlt2, hhead, hheight, hwf⟩ :=
    process_hourly_shape hp
  rw [hh] at hh2
  injection hh2 with hhb
  subst hhb
  rw [ht] at ht2
  injection ht2 with htt
  subst htt
  rw [hte] at hte2
  injection hte2 with htte
  subst htte
  obtain ⟨q, hq⟩ := hdvd
  have hK : hourlyCount t te = ((te - t) / 3600).toNat := by
    unfold hourlyCount
    omega
  refine ⟨_, getColumn_of_head hhead, ?_, ?_, ?_, ?_, ?_⟩
  · simp only [List.length_map, List.length_range]
    exact hK
  · refine List.pairwise_map.mpr ((List.pairwise_lt_range _).imp ?_)
    intro a b hab
    simp only [Int.ofNat_eq_natCast]
    omega
  · rw [List.chain'_map]
    cases hc : hourlyCount t te with
    | zero => simp
    | succ k =>
      refine (List.chain'_range_succ _ k).mpr ?_
      intro m _
      simp only [Int.ofNat_eq_natCast]
      omega
  · refine List.mem_map.mpr ⟨0, List.mem_range.mpr ?_, ?_⟩
    · omega
    · simp
  · intro hmem
    obtain ⟨i, hi, hei⟩ := List.mem_map.mp hmem
    rw [List.mem_range] at hi
    rw [hK] at hi
    simp only [Int.ofNat_eq_natCast] at hei
    omega

/-- C1 witness: a concrete successful call over the window
`[0, 7200)` yields the two-element hourly time column. -/
theorem claim_C1_witness :
    (fetch_weather_data "data" (Except.ok [okResp]) ts0 true "a" "b").result =
      Except.ok (okMeta, okDf) ∧
    ∃ axis, okDf.getColumn "time" = some axis ∧
      axis.length = (((7200 : Int) - 0) / 3600).toNat ∧
      List.Pairwise (fun a b => a < b) axis ∧
      List.Chain' (fun a b => b = a + 3600) axis ∧
      (0 : Int) ∈ axis ∧ (7200 : Int) ∉ axis :=
  ⟨by decide,
    @claim_C1 "data" (Except.ok [okResp]) ts0 true "a" "b" okMeta okDf okResp []
      okHourly 0 7200 rfl rfl rfl rfl ⟨2, by norm_num⟩ (by norm_num) (by decide)⟩

/-- C4 counterexample: a unit-length precipitation series over a two-hour
axis is a mismatched value sequence, yet the call succeeds: polars
broadcasts the length-1 series to the frame height, so the table is
returned (with the value repeated) and no processing error is raised. -/
theorem claim_C4_counterexample :
    badHourly.vars = [mkVar VarTag.precipitation 0 [5]] ∧
    ([5] : List Int).length ≠ hourlyCount 0 7200 ∧
    (fetch_weather_data "data" (Except.ok [badResp]) ts0 true "a" "b").result =
      Except.ok (okMeta,
        DataFrame.mk [("time", [0, 3600]), ("precipitation_member0", [5, 5])]) ∧
    ¬ ∃ m, (fetch_weather_data "data" (Except.ok [badResp]) ts0 true "a" "b").result =
      Except.error (FetchError.dataProcessingError m) := by
  refine ⟨rfl, by decide, by decide, ?_⟩
  intro hex
  obtain ⟨m, hm⟩ := hex
  rw [show (fetch_weather_data "data" (Except.ok [badResp]) ts0 true "a" "b").result =
      Except.ok (okMeta, DataFrame.mk [("time", [0, 3600]),
        ("precipitation_member0", [5, 5])]) from by decide] at hm
  exact absurd hm (by simp)

/-- C4 amended: every column of a returned table has the length of the
time axis, and a precipitation- or rain-tagged variable whose value
sequence has length other than 1 and does not match the axis length makes
the call fail with the processing error instead of returning a table (a
length-1 sequence is instead broadcast to the axis length). -/
theorem claim_C4_amended (output_dir : String) (transport : Except String (List Response))
    (now : Timestamp) (writeOk : Bool) (sd ed : String) :
    (∀ md df,
      (fetch_weather_data output_dir transport now writeOk sd ed).result =
        Except.ok (md, df) →
      ∃ axis, df.getColumn "time" = some axis ∧
        ∀ c ∈ df.cols, c.2.length = axis.length) ∧
    (∀ r rs hb t te v l,
      transport = Except.ok (r :: rs) → r.hourly = some hb →
      hb.time = some t → hb.timeEnd = some te → v ∈ hb.vars →
      (v.var = VarTag.precipitation ∨ v.var = VarTag.rain) → v.values = some l →
      l.length ≠ 1 → l.length ≠ hourlyCount t te →
      ∃ m, (fetch_weather_data output_dir transport now writeOk sd ed).result =
        Except.error (FetchError.dataProcessingError m)) := by
  constructor
  · intro md df hres
    obtain ⟨r, rs, htr, hm, hp, hw⟩ := fetch_ok_inv hres
    obtain ⟨hb, t, te, hh, ht, hte, hlt, hhead, hheight, hwf⟩ :=
      process_hourly_shape hp
    refine ⟨_, getColumn_of_head hhead, ?_⟩
    intro c hc
    rw [hwf c hc, hheight]
    simp only [List.length_map, List.length_range]
  · intro r rs hb t te v l htr hh ht hte hv htag hvals hne1 hlen
    rw [htr]
    cases hm : extract_metadata r with
    | error e => exact ⟨e, by simp only [fetch_weather_data, hm]⟩
    | ok md =>
      cases hp : process_hourly r with
      | error e => exact ⟨e, by simp only [fetch_weather_data, hm, hp]⟩
      | ok df =>
        exfalso
        obtain ⟨hb2, t2, te2, axis, df1, hh2, ht2, hte2, hdr, hp1, hp2⟩ :=
          process_hourly_ok hp
        rw [hh] at hh2
        injection hh2 with hhb
        subst hhb
        rw [ht] at ht2
        injection ht2 with htt
        subst htt
        rw [hte] at hte2
        injection hte2 with htte
        subst htte
        obtain ⟨hlt, haxis⟩ := datetime_range_ok hdr
        have haxlen : axis.length = hourlyCount t te := by
          rw [haxis]
          simp
        have h0 : (DataFrame.mk [("time", axis)]).height = axis.length := rfl
        rcases htag with htag | htag
        · have hvin : v ∈ hb.vars.filter
              (fun v => decide (v.var = VarTag.precipitation)) :=
            List.mem_filter.mpr ⟨hv, by simp [htag]⟩
          obtain ⟨l2, hl2, hlen2⟩ := addMembers_values_len hp1 v hvin
          rw [hvals] at hl2
          injection hl2 with hll
          subst hll
          rw [h0, haxlen] at hlen2
          rcases hlen2 with hlen2 | hlen2
          · exact hlen hlen2
          · exact hne1 hlen2.1
        · have hvin : v ∈ hb.vars.filter (fun v => decide (v.var = VarTag.rain)) :=
            List.mem_filter.mpr ⟨hv, by simp [htag]⟩
          obtain ⟨l2, hl2, hlen2⟩ := addMembers_values_len hp2 v hvin
          rw [hvals] at hl2
          injection hl2 with hll
          subst hll
          rw [addMembers_ok_height hp1, h0, haxlen] at hlen2
          rcases hlen2 with hlen2 | hlen2
          · exact hlen hlen2
          · exact hne1 hlen2.1

/-- C4 amended witness: on a concrete success all columns match the axis
length, and a concrete response with a three-element precipitation series
over a two-hour window fails with the processing error. -/
theorem claim_C4_amended_witness :
    ((fetch_weather_data "data" (Except.ok [okResp]) ts0 true "a" "b").result =
      Except.ok (okMeta, okDf) ∧
     ∃ axis, okDf.getColumn "time" = some axis ∧
       ∀ c ∈ okDf.cols, c.2.length = axis.length) ∧
    ∃ m, (fetch_weather_data "data" (Except.ok [bad3Resp]) ts0 true "a" "b").result =
      Except.error (FetchError.dataProcessingError m) := by
  constructor
  · exact ⟨by decide,
      (claim_C4_amended "data" (Except.ok [okResp]) ts0 true "a" "b").1 okMeta okDf
        (by decide)⟩
  · exact (claim_C4_amended "data" (Except.ok [bad3Resp]) ts0 true "a" "b").2
      bad3Resp [] bad3Hourly 0 7200 (mkVar VarTag.precipitation 0 [5, 6, 7])
      [5, 6, 7] rfl rfl rfl rfl (by decide) (Or.inl rfl) rfl (by decide) (by decide)

/-- C6: a call fails exactly when an error line is logged (every failure
is logged and re-signaled, no failure is swallowed), and a returned
`(metadata, table)` pair is always the genuinely extracted metadata and
genuinely assembled table, never a fallback. -/
theorem claim_C6 (output_dir : String) (transport : Except String (List Response))
    (now : Timestamp) (writeOk : Bool) (sd ed : String) :
    ((∃ e, (fetch_weather_data output_dir transport now writeOk sd ed).result =
        Except.error e) ↔
      ∃ entry ∈ (fetch_weather_data output_dir transport now writeOk sd ed).log,
        entry.level = Level.error) ∧
    (∀ md df,
      (fetch_weather_data output_dir transport now writeOk sd ed).result =
        Except.ok (md, df) →
      ∃ r rs, transport = Except.ok (r :: rs) ∧
        extract_metadata r = Except.ok md ∧ process_hourly r = Except.ok df) := by
  constructor
  · unfold fetch_weather_data
    cases transport with
    | error e => simp
    | ok responses =>
      cases responses with
      | nil => simp
      | cons r rs =>
        cases hm : extract_metadata r with
        | error e => simp [hm]
        | ok md =>
          cases hp : process_hourly r with
          | error e => simp [hm, hp]
          | ok df =>
            cases writeOk with
            | true => simp [hm, hp, save_dataframe]
            | false => simp [hm, hp, save_dataframe]
  · intro md df h
    obtain ⟨r, rs, h1, h2, h3, -⟩ := fetch_ok_inv h
    exact ⟨r, rs, h1, h2, h3⟩

/-- C6 witness: on a concrete failing run the error-line equivalence is
inhabited on both sides, and a concrete successful run returns exactly the
extracted metadata and assembled table. -/
theorem claim_C6_witness :
    ((∃ e, (fetch_weather_data "data" (Except.ok [noMetaResp]) ts0 true "a"
        "b").result = Except.error e) ↔
      ∃ entry ∈ (fetch_weather_data "data" (Except.ok [noMetaResp]) ts0 true "a"
        "b").log, entry.level = Level.error) ∧
    ∃ r rs, (Except.ok [okResp] : Except String (List Response)) =
        Except.ok (r :: rs) ∧
      extract_metadata r = Except.ok okMeta ∧ process_hourly r = Except.ok okDf :=
  ⟨(claim_C6 "data" (Except.ok [noMetaResp]) ts0 true "a" "b").1,
   (claim_C6 "data" (Except.ok [okResp]) ts0 true "a" "b").2 okMeta okDf (by decide)⟩

/-- C10: an hourly variable tagged neither precipitation nor rain is
silently ignored (removing it from the response changes nothing
observable), and a response with no precipitation and no rain variables
still succeeds, with a table holding only the time column. -/
theorem claim_C10 :
    (∀ (output_dir : String) (now : Timestamp) (writeOk : Bool) (sd ed : String)
      (r : Response) (rs : List Response) (hb : Hourly)
      (l1 l2 : List HourlyVariable) (v : HourlyVariable),
      v.var ≠ VarTag.precipitation → v.var ≠ VarTag.rain →
      fetch_weather_data output_dir
        (Except.ok ({ r with hourly := some { hb with vars := l1 ++ v :: l2 } } :: rs))
        now writeOk sd ed =
      fetch_weather_data output_dir
        (Except.ok ({ r with hourly := some { hb with vars := l1 ++ l2 } } :: rs))
        now writeOk sd ed) ∧
    (∀ (output_dir : String) (now : Timestamp) (sd ed : String) (r : Response)
      (rs : List Response) (hb : Hourly) (t te : Int) (md : Metadata),
      extract_metadata r = Except.ok md → r.hourly = some hb →
      hb.time = some t → hb.timeEnd = some te → ¬ te < t →
      (∀ v ∈ hb.vars, v.var ≠ VarTag.precipitation ∧ v.var ≠ VarTag.rain) →
      (fetch_weather_data output_dir (Except.ok (r :: rs)) now true sd ed).result =
        Except.ok (md, DataFrame.mk [("time",
          (List.range (hourlyCount t te)).map (fun i => t + 3600 * Int.ofNat i))])) := by
  constructor
  · intro output_dir now writeOk sd ed r rs hb l1 l2 v h1 h2
    have hm : extract_metadata
          { r with hourly := some { hb with vars := l1 ++ v :: l2 } } =
        extract_metadata { r with hourly := some { hb with vars := l1 ++ l2 } } := rfl
    have hp : process_hourly
          { r with hourly := some { hb with vars := l1 ++ v :: l2 } } =
        process_hourly { r with hourly := some { hb with vars := l1 ++ l2 } } := by
      simp [process_hourly, List.filter_append, List.filter_cons, h1, h2]
    simp only [fetch_weather_data, hm, hp]
  · intro output_dir now sd ed r rs hb t te md hm hh ht hte hlt hvars
    have hfP : hb.vars.filter (fun w => decide (w.var = VarTag.precipitation)) = [] := by
      rw [List.filter_eq_nil_iff]
      intro a ha
      simpa using (hvars a ha).1
    have hfR : hb.vars.filter (fun w => decide (w.var = VarTag.rain)) = [] := by
      rw [List.filter_eq_nil_iff]
      intro a ha
      simpa using (hvars a ha).2
    have hp : process_hourly r = Except.ok (DataFrame.mk [("time",
        (List.range (hourlyCount t te)).map (fun i => t + 3600 * Int.ofNat i))]) := by
      simp only [process_hourly, hh, ht, hte, datetime_range, if_neg hlt, hfP, hfR,
        addMembers]
    simp only [fetch_weather_data, hm, hp, save_dataframe, if_true]

/-- C10 witness: removing a concrete foreign-tagged variable leaves the
concrete outcome unchanged, and a concrete response containing only a
foreign-tagged variable succeeds with a time-only table. -/
theorem claim_C10_witness :
    (fetch_weather_data "data"
        (Except.ok [{ okResp with hourly := some { okHourly with
          vars := [] ++ mkVar (VarTag.other 7) 3 [9, 9] :: [] } }]) ts0 true "a" "b" =
      fetch_weather_data "data"
        (Except.ok [{ okResp with hourly := some { okHourly with
          vars := [] ++ [] } }]) ts0 true "a" "b") ∧
    (fetch_weather_data "data" (Except.ok [otherResp]) ts0 true "a" "b").result =
      Except.ok (okMeta, DataFrame.mk [("time",
        (List.range (hourlyCount 0 7200)).map (fun i => 0 + 3600 * Int.ofNat i))]) :=
  ⟨claim_C10.1 "data" ts0 true "a" "b" okResp [] okHourly [] []
      (mkVar (VarTag.other 7) 3 [9, 9]) (by decide) (by decide),
   claim_C10.2 "data" ts0 "a" "b" otherResp [] otherHourly 0 7200 okMeta
      (by decide) rfl rfl rfl (by decide) (by decide)⟩

/-- C3 counterexample: a response with two precipitation variables that
share ensemble member 0 (N = 2, M = 0) yields a table with 2 columns, not
1 + N + M = 3: the second same-named series replaces the first column. -/
theorem claim_C3_counterexample :
    ((dupHourly.vars.filter (fun v => decide (v.var = VarTag.precipitation))).length
      = 2) ∧
    ((dupHourly.vars.filter (fun v => decide (v.var = VarTag.rain))).length = 0) ∧
    (fetch_weather_data "data" (Except.ok [dupResp]) ts0 true "a" "b").result =
      Except.ok (okMeta,
        DataFrame.mk [("time", [0, 3600]), ("precipitation_member0", [3, 4])]) ∧
    (DataFrame.mk [("time", [0, 3600]),
      ("precipitation_member0", [3, 4])]).cols.length ≠ 1 + 2 + 0 := by
  refine ⟨by decide, by decide, by decide, by decide⟩

/-- C3 amended: when ensemble-member indices are pairwise distinct within
each variable, the returned table has exactly `1 + N + M` columns and its
column names are pairwise distinct. -/
theorem claim_C3_amended {output_dir : String}
    {transport : Except String (List Response)} {now : Timestamp} {writeOk : Bool}
    {sd ed : String} {md : Metadata} {df : DataFrame} {r : Response}
    {rs : List Response} {hb : Hourly}
    (htr : transport = Except.ok (r :: rs)) (hh : r.hourly = some hb)
    (hndP : ((hb.vars.filter (fun v => decide (v.var = VarTag.precipitation))).map
        HourlyVariable.ensembleMember).Nodup)
    (hndR : ((hb.vars.filter (fun v => decide (v.var = VarTag.rain))).map
        HourlyVariable.ensembleMember).Nodup)
    (hres : (fetch_weather_data output_dir transport now writeOk sd ed).result =
      Except.ok (md, df)) :
    df.cols.length =
      1 + (hb.vars.filter (fun v => decide (v.var = VarTag.precipitation))).length +
        (hb.vars.filter (fun v => decide (v.var = VarTag.rain))).length ∧
    (df.cols.map Prod.fst).Nodup := by
  obtain ⟨r2, rs2, htr2, hm, hp, hw⟩ := fetch_ok_inv hres
  rw [htr] at htr2
  simp only [Except.ok.injEq, List.cons.injEq] at htr2
  obtain ⟨rfl, -⟩ := htr2
  have hnP : ((hb.vars.filter (fun v => decide (v.var = VarTag.precipitation))).map
      (memberName "precipitation_member")).Nodup :=
    nodup_map_of_map hndP (fun x _ y _ hxy => memberName_inj hxy)
  have hnR : ((hb.vars.filter (fun v => decide (v.var = VarTag.rain))).map
      (memberName "rain_member")).Nodup :=
    nodup_map_of_map hndR (fun x _ y _ hxy => memberName_inj hxy)
  have hnames := process_hourly_names hp hh hnP hnR
  constructor
  · have hlen := congrArg List.length hnames
    rw [List.length_map] at hlen
    rw [hlen]
    simp only [List.length_cons, List.length_append, List.length_map]
    omega
  · rw [hnames, List.nodup_cons]
    constructor
    · intro hmem
      rw [List.mem_append] at hmem
      rcases hmem with hmem | hmem
      · obtain ⟨w, -, hw2⟩ := List.mem_map.mp hmem
        exact precipName_ne_time w hw2
      · obtain ⟨w, -, hw2⟩ := List.mem_map.mp hmem
        exact rainName_ne_time w hw2
    · rw [List.nodup_append]
      refine ⟨hnP, hnR, ?_⟩
      intro a haP haR
      obtain ⟨w, -, hw2⟩ := List.mem_map.mp haP
      obtain ⟨w2, -, hw3⟩ := List.mem_map.mp haR
      exact precipName_ne_rainName w w2 (hw2.trans hw3.symm)

/-- C3 amended witness: a concrete response with one precipitation and
one rain member yields 1 + 1 + 1 pairwise-distinct columns. -/
theorem claim_C3_amended_witness :
    (fetch_weather_data "data" (Except.ok [okResp]) ts0 true "a" "b").result =
      Except.ok (okMeta, okDf) ∧
    okDf.cols.length =
      1 + (okHourly.vars.filter
            (fun v => decide (v.var = VarTag.precipitation))).length +
        (okHourly.vars.filter (fun v => decide (v.var = VarTag.rain))).length ∧
    (okDf.cols.map Prod.fst).Nodup :=
  ⟨by decide,
    @claim_C3_amended "data" (Except.ok [okResp]) ts0 true "a" "b" okMeta okDf
      okResp [] okHourly rfl rfl (by decide) (by decide) (by decide)⟩

/-- C5 counterexample: in a response listing a rain variable before a
precipitation variable, the rain column nevertheless comes after the
precipitation column, so the non-time columns do not follow response
order. -/
theorem claim_C5_counterexample :
    okHourly.vars.map (fun v => v.var) = [VarTag.rain, VarTag.precipitation] ∧
    (fetch_weather_data "data" (Except.ok [okResp]) ts0 true "a" "b").result =
      Except.ok (okMeta, okDf) ∧
    okDf.cols.map Prod.fst = ["time", "precipitation_member0", "rain_member0"] ∧
    ¬ okDf.cols.map Prod.fst = ["time", "rain_member0", "precipitation_member0"] := by
  refine ⟨by decide, by decide, by decide, by decide⟩

/-- C5 amended: when ensemble-member indices are pairwise distinct within
each variable, the non-time columns are grouped: every precipitation
column precedes every rain column, and within each group the columns
follow the order the variables appear in the response. -/
theorem claim_C5_amended {output_dir : String}
    {transport : Except String (List Response)} {now : Timestamp} {writeOk : Bool}
    {sd ed : String} {md : Metadata} {df : DataFrame} {r : Response}
    {rs : List Response} {hb : Hourly}
    (htr : transport = Except.ok (r :: rs)) (hh : r.hourly = some hb)
    (hndP : ((hb.vars.filter (fun v => decide (v.var = VarTag.precipitation))).map
        HourlyVariable.ensembleMember).Nodup)
    (hndR : ((hb.vars.filter (fun v => decide (v.var = VarTag.rain))).map
        HourlyVariable.ensembleMember).Nodup)
    (hres : (fetch_weather_data output_dir transport now writeOk sd ed).result =
      Except.ok (md, df)) :
    df.cols.map Prod.fst = "time" ::
      ((hb.vars.filter (fun v => decide (v.var = VarTag.precipitation))).map
        (memberName "precipitation_member") ++
       (hb.vars.filter (fun v => decide (v.var = VarTag.rain))).map
        (memberName "rain_member")) := by
  obtain ⟨r2, rs2, htr2, hm, hp, hw⟩ := fetch_ok_inv hres
  rw [htr] at htr2
  simp only [Except.ok.injEq, List.cons.injEq] at htr2
  obtain ⟨rfl, -⟩ := htr2
  exact process_hourly_names hp hh
    (nodup_map_of_map hndP (fun x _ y _ hxy => memberName_inj hxy))
    (nodup_map_of_map hndR (fun x _ y _ hxy => memberName_inj hxy))

/-- C5 amended witness: on the concrete rain-before-precipitation
response the columns come out time, then precipitation, then rain. -/
theorem claim_C5_amended_witness :
    (fetch_weather_data "data" (Except.ok [okResp]) ts0 true "a" "b").result =
      Except.ok (okMeta, okDf) ∧
    okDf.cols.map Prod.fst = "time" ::
      ((okHourly.vars.filter (fun v => decide (v.var = VarTag.precipitation))).map
        (memberName "precipitation_member") ++
       (okHourly.vars.filter (fun v => decide (v.var = VarTag.rain))).map
        (memberName "rain_member")) :=
  ⟨by decide,
    @claim_C5_amended "data" (Except.ok [okResp]) ts0 true "a" "b" okMeta okDf
      okResp [] okHourly rfl rfl (by decide) (by decide) (by decide)⟩

end EnergyDataHub
